import Mathlib

/- Verification development for the citrex-sdk order-construction and signing
pipeline (src/index.ts).  The client class is embedded shallowly: each public
operation becomes a pure function from the client configuration, the
caller-supplied arguments and the outcomes of the external collaborators
(the typed-data signer and the HTTP transport, both of which can fail) to the
operation's result envelope together with the list of signing calls and
network requests the operation performed.  JavaScript numbers are idealised
as rationals, JavaScript bigints as integers, and the absence of an optional
value (undefined) as Option.none.  Files of the repository that are not in
the source tree (src/enums.ts, src/utils/toRounded.ts, src/constants/messages.ts,
src/constants/time.ts) are modelled from the specification, as marked. -/

/-- Modelled from the spec: src/enums.ts is absent from the source tree.
Order-kind wire codes per spec section 6: LIMIT=0, LIMIT_MAKER=1, MARKET=2,
LIMIT_REDUCE_ONLY=3; they match the recorded payloads in
src/__tests__/client.orders.test.ts. -/
inductive OrderType where
  | limit
  | limitMaker
  | market
  | limitReduceOnly
deriving DecidableEq

/-- Wire code of an order kind. -/
def OrderType.code : OrderType → ℕ
  | OrderType.limit => 0
  | OrderType.limitMaker => 1
  | OrderType.market => 2
  | OrderType.limitReduceOnly => 3

/-- Modelled from the spec: src/enums.ts is absent from the source tree.
Time-in-force wire codes per spec section 6: GTC=0, FOK=1, IOC=2; they match
the recorded payloads in src/__tests__/client.orders.test.ts. -/
inductive TimeInForce where
  | gtc
  | fok
  | ioc
deriving DecidableEq

/-- Wire code of a time-in-force. -/
def TimeInForce.code : TimeInForce → ℕ
  | TimeInForce.gtc => 0
  | TimeInForce.fok => 1
  | TimeInForce.ioc => 2

/-- Modelled from the spec: src/constants/messages.ts is absent from the source
tree.  The generic unknown-error message of spec section 4.6, pinned verbatim
by src/__tests__/client.orders.test.ts. -/
def UNKNOWN_ERROR : String :=
  "An unknown error occurred. Try enabling debug mode for mode detail."

/-- Modelled from the spec: src/constants/time.ts is absent from the source
tree.  Thirty days in milliseconds (spec section 4.2 default expiration),
confirmed by the timestamps recorded in src/__tests__/client.orders.test.ts. -/
def THIRTY_DAYS : ℤ := 2592000000

/-- JavaScript truthiness of an optional string response field: an absent
field (undefined) and the empty string are falsy, every other string truthy.
This is the semantics of the source's `if (error)` checks. -/
def jsTruthy : Option String → Bool
  | none => false
  | some s => s != ""

/-- Round a rational to an integer, halves away from zero. -/
def roundHalfAway (x : ℚ) : ℤ :=
  if 0 ≤ x then ⌊x + 1 / 2⌋ else -⌊-x + 1 / 2⌋

/-- Modelled from the spec: src/utils/toRounded.ts is absent from the source
tree.  Spec section 4.3: the slippage-adjusted price is rounded to the given
number of decimal places with round-half-away-from-zero semantics. -/
def toRounded (value : ℚ) (precision : ℤ) : ℚ :=
  (roundHalfAway (value * 10 ^ precision) : ℚ) / 10 ^ precision

/-- The `#adjustPriceForSlippage` private method (src/index.ts:165).
`Nat.log 10` plays the part of `Math.log10`, with which it agrees on the
power-of-ten tick increments the exchange uses; non-power-of-ten increments
would give `Math.log10` a fractional value and are outside this embedding. -/
def adjustPriceForSlippage (isBuy : Bool) (price slippage : ℚ)
    (priceIncrement : ℕ) : ℚ :=
  let slippagePercentage := slippage / 100
  let multiplier := if isBuy then 1 + slippagePercentage else 1 - slippagePercentage
  let precision : ℤ := 18 - (Nat.log 10 priceIncrement : ℤ)
  toRounded (price * multiplier) precision

/-- Rational-valued idealisation of `#toWei` (src/index.ts:286), that is
`parseEther(value.toString())`: scale by 10^18 and round to an integer.  On
every decimal value with at most 18 fractional digits the scaling is already
exact and the rounding is the identity; the digit-level decimal parser the
library delegates to is modelled separately below as `parseUnitsCore`. -/
def toWeiRat (value : ℚ) : ℤ := roundHalfAway (value * 10 ^ (18 : ℕ))

/-- Rational-valued idealisation of `#toUSDC` (src/index.ts:278), that is
`parseUnits(value.toString(), 6)`. -/
def toUSDCRat (value : ℚ) : ℤ := roundHalfAway (value * 10 ^ (6 : ℕ))

/-- Drop trailing zero digits from a fraction-digit string, represented as its
numeric value paired with its length: the `fraction.replace(/(0+)$/, '')` step
of viem's `parseUnits`. -/
def trimTrailingZeros (val : ℕ) : ℕ → ℕ × ℕ
  | 0 => (val, 0)
  | n + 1 => if val % 10 = 0 then trimTrailingZeros (val / 10) n else (val, n + 1)

/-- Number of decimal digits of a natural number (1 for 0), by fuel so that the
kernel can evaluate it. -/
def numDigitsAux : ℕ → ℕ → ℕ
  | 0, _ => 0
  | fuel + 1, n => if n < 10 then 1 else numDigitsAux fuel (n / 10) + 1

/-- Number of decimal digits of a natural number. -/
def numDigits (n : ℕ) : ℕ := numDigitsAux (n + 1) n

/-- The non-negative core of viem's `parseUnits(value, decimals)`, the decimal
parser behind `#toWei` and `#toUSDC`: the integer part together with the
fraction-digit string (value `fval`, length `flen`) is turned into the scaled
integer.  Trailing zeros of the fraction are trimmed first; a fraction longer
than `decimals` is rounded half-up at the cut (with carry into the integer
part), a shorter one is right-padded with zeros. -/
def parseUnitsCore (intPart fval flen decimals : ℕ) : ℕ :=
  let t := trimTrailingZeros fval flen
  let fv := t.1
  let fl := t.2
  if decimals = 0 then
    if 10 ^ fl ≤ 2 * fv then intPart + 1 else intPart
  else if decimals < fl then
    let rlen := fl - decimals
    let lval := fv / 10 ^ (rlen + 1)
    let unit := fv / 10 ^ rlen % 10
    let right := fv % 10 ^ rlen
    let rounded := unit + (if 10 ^ rlen ≤ 2 * right then 1 else 0)
    if 9 < rounded then
      let carried := (lval + 1) * 10
      let clen := max decimals (numDigits (lval + 1) + 1)
      if decimals < clen then
        intPart * 10 ^ decimals + carried % 10 ^ decimals + 10 ^ decimals
      else
        intPart * 10 ^ decimals + carried
    else
      intPart * 10 ^ decimals + (lval * 10 + rounded)
  else
    intPart * 10 ^ decimals + fv * 10 ^ (decimals - fl)

/-- A decimal number as rendered by `value.toString()`: a sign, an integer
part, and a fraction-digit string represented by its value and length. -/
structure DecimalNum where
  neg : Bool
  intPart : ℕ
  fracVal : ℕ
  fracLen : ℕ
deriving DecidableEq

/-- Signed decimal parsing, viem's `parseUnits` on a `toString` rendering. -/
def parseUnitsDec (x : DecimalNum) (decimals : ℕ) : ℤ :=
  let mag := parseUnitsCore x.intPart x.fracVal x.fracLen decimals
  if x.neg then -(mag : ℤ) else (mag : ℤ)

/-- The `#toWei` conversion (src/index.ts:286) on the decimal rendering of its
input: `parseEther` is `parseUnits` at 18 decimals. -/
def toWeiDec (x : DecimalNum) : ℤ := parseUnitsDec x 18

/-- The `#toUSDC` conversion (src/index.ts:278) on the decimal rendering of
its input: `parseUnits` at 6 decimals. -/
def toUSDCDec (x : DecimalNum) : ℤ := parseUnitsDec x 6

/-- The rational value denoted by a decimal number. -/
def DecimalNum.val (x : DecimalNum) : ℚ :=
  (if x.neg then -1 else 1) * ((x.intPart : ℚ) + (x.fracVal : ℚ) / 10 ^ x.fracLen)

example : adjustPriceForSlippage true 3450 (5 / 2) (10 ^ 17) = 35363 / 10 := by
  unfold adjustPriceForSlippage toRounded roundHalfAway
  rw [Nat.log_pow (by norm_num)]
  norm_num

/-- An `{message}` error object of a result envelope. -/
structure ErrorInfo where
  message : String
deriving DecidableEq

/-- The EIP-712 signing domain held by the client (src/index.ts:117). -/
structure EIP712Domain where
  name : String
  version : String
  chainId : ℤ
  verifyingContract : String
deriving DecidableEq

/-- The environment the client was constructed against. -/
inductive Environment where
  | mainnet
  | testnet
deriving DecidableEq

/-- The client configuration established by the constructor
(src/index.ts:102-153).  The chain descriptor is represented by its id and the
margin-asset table by an association list. -/
structure Config where
  account : String
  apiUrl : String
  chain : ℤ
  ciaoAddress : String
  domain : EIP712Domain
  environment : Environment
  marginAssets : List (String × String)
  rpc : String
  subAccountId : ℤ
  verifierAddress : String
deriving DecidableEq

/-- The typed `Order` message signed by placeOrder and cancelAndReplaceOrder
(src/index.ts:1119-1125 and 656-662); enum fields carry their wire codes. -/
structure OrderMessage where
  account : String
  isBuy : Bool
  expiration : ℤ
  nonce : ℤ
  orderType : ℕ
  price : ℤ
  productId : ℤ
  quantity : ℤ
  subAccountId : ℤ
  timeInForce : ℕ
deriving DecidableEq

/-- The JSON body POSTed by placeOrder (src/index.ts:1131-1138): price and
quantity travel as decimal strings, expiration and nonce as plain numbers. -/
structure OrderBody where
  expiration : ℤ
  nonce : ℤ
  price : String
  quantity : String
  signature : String
  account : String
  isBuy : Bool
  orderType : ℕ
  productId : ℤ
  subAccountId : ℤ
  timeInForce : ℕ
deriving DecidableEq

/-- The JSON body POSTed by cancelAndReplaceOrder (src/index.ts:668-678). -/
structure ReplaceBody where
  idToCancel : String
  newOrder : OrderBody
deriving DecidableEq

/-- The typed `CancelOrder` message (src/index.ts:759-764). -/
structure CancelOrderMessage where
  account : String
  orderId : String
  productId : ℤ
  subAccountId : ℤ
deriving DecidableEq

/-- The body of the DELETE order request (src/index.ts:770-771). -/
structure CancelOrderBody where
  account : String
  orderId : String
  productId : ℤ
  subAccountId : ℤ
  signature : String
deriving DecidableEq

/-- The typed `CancelOrders` message (src/index.ts:712-716). -/
structure CancelOrdersMessage where
  account : String
  productId : ℤ
  subAccountId : ℤ
deriving DecidableEq

/-- The body of the DELETE openOrders request (src/index.ts:721-722). -/
structure CancelOrdersBody where
  account : String
  productId : ℤ
  subAccountId : ℤ
  signature : String
deriving DecidableEq

/-- The typed `Withdraw` message (src/index.ts:1195-1199). -/
structure WithdrawMessage where
  account : String
  asset : String
  subAccountId : ℤ
  nonce : ℤ
  quantity : ℤ
deriving DecidableEq

/-- The body of the POST withdraw request (src/index.ts:1204-1210). -/
structure WithdrawBody where
  account : String
  asset : String
  subAccountId : ℤ
  nonce : ℤ
  quantity : String
  signature : String
deriving DecidableEq

/-- One external action performed by an operation: a typed-data signing call
or an HTTP request.  An operation's trace lists its actions in order. -/
inductive Effect where
  | signOrder (m : OrderMessage)
  | signCancelOrder (m : CancelOrderMessage)
  | signCancelOrders (m : CancelOrdersMessage)
  | signWithdraw (m : WithdrawMessage)
  | postOrder (body : OrderBody)
  | postReplace (body : ReplaceBody)
  | deleteOrder (body : CancelOrderBody)
  | deleteOpenOrders (body : CancelOrdersBody)
  | postWithdraw (body : WithdrawBody)
  | getRequest (path : String)
deriving DecidableEq

/-- Result envelope of placeOrder and cancelAndReplaceOrder: on success the
API payload (minus its error field) under `order`; `none` models the empty
object `{}` used on failure. -/
structure PlaceOrderResult where
  error : Option ErrorInfo
  order : Option String
deriving DecidableEq

/-- Result envelope of cancelOrder, cancelOpenOrdersForProduct and withdraw. -/
structure SuccessResult where
  error : Option ErrorInfo
  success : Bool
deriving DecidableEq

/-- Result envelope of getAccountHealth; `none` models the empty object. -/
structure AccountHealthResult where
  error : Option ErrorInfo
  accountHealth : Option String
deriving DecidableEq

/-- Result envelope of getTradeHistory. -/
structure TradeHistoryResult where
  error : Option ErrorInfo
  trades : List String
deriving DecidableEq

/-- Result envelope of calculateMarginRequirement.  The error branches of the
source build their placeholder with `BigInt('')`, which evaluates to the
bigint 0. -/
structure MarginRequirementResult where
  error : Option ErrorInfo
  required : ℤ
deriving DecidableEq

/-- Result envelope of getKlines. -/
structure KlinesResult where
  error : Option ErrorInfo
  klines : List String
deriving DecidableEq

/-- A parsed `order` endpoint response: an optional error string plus the
remaining payload fields, kept opaque. -/
structure OrderApiResponse where
  error : Option String
  rest : String
deriving DecidableEq

/-- A parsed response carrying `{error?, success}`. -/
structure SuccessApiResponse where
  error : Option String
  success : Bool
deriving DecidableEq

/-- A parsed response carrying `{error?, value}` with an opaque value. -/
structure ValueApiResponse where
  error : Option String
  value : String
deriving DecidableEq

/-- A parsed new-order-margin response: `{error?, value}` with a bigint. -/
structure MarginApiResponse where
  error : Option String
  value : ℤ
deriving DecidableEq

/-- A parsed trade-history response: `{error?, trades?}`. -/
structure TradesApiResponse where
  error : Option String
  trades : Option (List String)
deriving DecidableEq

/-- External world of one placeOrder or cancelAndReplaceOrder call: the clock
and nonce defaults and the outcomes of the signing and transport calls, either
of which can throw (`Except.error`). -/
structure OrderEnv where
  now : ℤ
  nonce0 : ℤ
  sign : Except Unit String
  fetch : Except Unit OrderApiResponse

/-- External world of one cancelOrder or cancelOpenOrdersForProduct call. -/
structure CancelEnv where
  sign : Except Unit String
  fetch : Except Unit SuccessApiResponse

/-- External world of one withdraw call. -/
structure WithdrawEnv where
  nonce0 : ℤ
  sign : Except Unit String
  fetch : Except Unit SuccessApiResponse

/-- Arguments of placeOrder (src/index.ts:1084-1095); optional arguments are
`Option` and their defaulting happens inside the operation, as in the source's
destructuring defaults.  The price increment is a bigint in the source. -/
structure OrderArgs where
  expiration : Option ℤ
  isBuy : Bool
  nonce : Option ℤ
  orderType : Option OrderType
  price : ℚ
  priceIncrement : Option ℕ
  productId : ℤ
  quantity : ℚ
  slippage : Option ℚ
  timeInForce : Option TimeInForce
deriving DecidableEq

/-- Arguments of cancelAndReplaceOrder (src/index.ts:636-643): the replacement
order cannot carry an order type, a time in force, a price increment or a
slippage. -/
structure ReplacementOrderArgs where
  expiration : Option ℤ
  isBuy : Bool
  nonce : Option ℤ
  price : ℚ
  productId : ℤ
  quantity : ℚ
deriving DecidableEq

/-- Optional getKlines query arguments (src/index.ts:423). -/
structure KlineOptionalArgs where
  endTime : Option ℤ
  interval : Option String
  limit : Option ℤ
  startTime : Option ℤ
deriving DecidableEq

/-- JavaScript `Number(a) > Number(b)` on optional numbers: `Number(undefined)`
is NaN and every comparison against NaN is false. -/
def jsGT : Option ℤ → Option ℤ → Bool
  | some a, some b => decide (b < a)
  | _, _ => false

/-- JavaScript `Number(a) <= Number(b)` on optional numbers, false when either
side is NaN. -/
def jsLE : Option ℤ → Option ℤ → Bool
  | some a, some b => decide (a ≤ b)
  | _, _ => false

/-- Build the typed `Order` message (src/index.ts:1119-1125 / 656-662). -/
def buildOrderMessage (cfg : Config) (isBuy : Bool) (orderType : OrderType)
    (timeInForce : TimeInForce) (productId expiration nonce bigPrice bigQuantity : ℤ) :
    OrderMessage :=
  { account := cfg.account
    isBuy := isBuy
    expiration := expiration
    nonce := nonce
    orderType := orderType.code
    price := bigPrice
    productId := productId
    quantity := bigQuantity
    subAccountId := cfg.subAccountId
    timeInForce := timeInForce.code }

/-- Build the wire body of a new order (src/index.ts:1131-1138 / 670-677):
the same values as the typed message, with price and quantity rendered as
decimal strings by `BigInt.prototype.toString`. -/
def buildOrderBody (cfg : Config) (isBuy : Bool) (orderType : OrderType)
    (timeInForce : TimeInForce) (productId expiration nonce bigPrice bigQuantity : ℤ)
    (signature : String) : OrderBody :=
  { expiration := expiration
    nonce := nonce
    price := toString bigPrice
    quantity := toString bigQuantity
    signature := signature
    account := cfg.account
    isBuy := isBuy
    orderType := orderType.code
    productId := productId
    subAccountId := cfg.subAccountId
    timeInForce := timeInForce.code }

/-- The placeOrder operation (src/index.ts:1084-1158): resolve defaults,
validate the market-order precondition, convert to fixed point, build and sign
the typed message, POST the wire body, and normalise the response.  Both the
signing call and the transport sit inside the source's try/catch, so either
failure lands in the unknown-error envelope. -/
def placeOrder (cfg : Config) (env : OrderEnv) (args : OrderArgs) :
    PlaceOrderResult × List Effect :=
  let expiration := args.expiration.getD (env.now + THIRTY_DAYS)
  let nonce := args.nonce.getD env.nonce0
  let orderType := args.orderType.getD OrderType.market
  let slippage := args.slippage.getD (5 / 2)
  let timeInForce := args.timeInForce.getD TimeInForce.fok
  if orderType = OrderType.market ∧ args.priceIncrement = none then
    ({ error := some { message := "A priceIncrement is required for market orders" },
       order := none }, [])
  else
    let bigPrice :=
      if orderType = OrderType.market then
        toWeiRat (adjustPriceForSlippage args.isBuy args.price slippage
          (args.priceIncrement.getD 0))
      else
        toWeiRat args.price
    let bigQuantity := toWeiRat args.quantity
    let message := buildOrderMessage cfg args.isBuy orderType timeInForce
      args.productId expiration nonce bigPrice bigQuantity
    match env.sign with
    | Except.error _ =>
      ({ error := some { message := UNKNOWN_ERROR }, order := none },
       [Effect.signOrder message])
    | Except.ok signature =>
      let body := buildOrderBody cfg args.isBuy orderType timeInForce
        args.productId expiration nonce bigPrice bigQuantity signature
      match env.fetch with
      | Except.error _ =>
        ({ error := some { message := UNKNOWN_ERROR }, order := none },
         [Effect.signOrder message, Effect.postOrder body])
      | Except.ok resp =>
        if jsTruthy resp.error then
          ({ error := some { message := resp.error.getD "" }, order := none },
           [Effect.signOrder message, Effect.postOrder body])
        else
          ({ error := none, order := some resp.rest },
           [Effect.signOrder message, Effect.postOrder body])

/-- The placeOrders batch operation (src/index.ts:1167-1169):
`Promise.all(ordersArgs.map(orderArgs => placeOrder(orderArgs)))`, each call
paired with its own external world. -/
def placeOrders (cfg : Config) (calls : List (OrderArgs × OrderEnv)) :
    List PlaceOrderResult :=
  calls.map fun call => (placeOrder cfg call.2 call.1).1

/-- The cancelAndReplaceOrder operation (src/index.ts:634-698): the replacement
order is pinned to LIMIT_MAKER / GTC in both the typed message and the wire
payload. -/
def cancelAndReplaceOrder (cfg : Config) (env : OrderEnv) (orderId : String)
    (args : ReplacementOrderArgs) : PlaceOrderResult × List Effect :=
  let expiration := args.expiration.getD (env.now + THIRTY_DAYS)
  let nonce := args.nonce.getD env.nonce0
  let bigPrice := toWeiRat args.price
  let bigQuantity := toWeiRat args.quantity
  let message := buildOrderMessage cfg args.isBuy OrderType.limitMaker TimeInForce.gtc
    args.productId expiration nonce bigPrice bigQuantity
  match env.sign with
  | Except.error _ =>
    ({ error := some { message := UNKNOWN_ERROR }, order := none },
     [Effect.signOrder message])
  | Except.ok signature =>
    let body : ReplaceBody :=
      { idToCancel := orderId
        newOrder := buildOrderBody cfg args.isBuy OrderType.limitMaker TimeInForce.gtc
          args.productId expiration nonce bigPrice bigQuantity signature }
    match env.fetch with
    | Except.error _ =>
      ({ error := some { message := UNKNOWN_ERROR }, order := none },
       [Effect.signOrder message, Effect.postReplace body])
    | Except.ok resp =>
      if jsTruthy resp.error then
        ({ error := some { message := resp.error.getD "" }, order := none },
         [Effect.signOrder message, Effect.postReplace body])
      else
        ({ error := none, order := some resp.rest },
         [Effect.signOrder message, Effect.postReplace body])

/-- The cancelOrder operation (src/index.ts:755-790).  On the known-error
branch the response's own success flag is passed through. -/
def cancelOrder (cfg : Config) (env : CancelEnv) (orderId : String)
    (productId : ℤ) : SuccessResult × List Effect :=
  let message : CancelOrderMessage :=
    { account := cfg.account
      orderId := orderId
      productId := productId
      subAccountId := cfg.subAccountId }
  match env.sign with
  | Except.error _ =>
    ({ error := some { message := UNKNOWN_ERROR }, success := false },
     [Effect.signCancelOrder message])
  | Except.ok signature =>
    let body : CancelOrderBody :=
      { account := cfg.account
        orderId := orderId
        productId := productId
        subAccountId := cfg.subAccountId
        signature := signature }
    match env.fetch with
    | Except.error _ =>
      ({ error := some { message := UNKNOWN_ERROR }, success := false },
       [Effect.signCancelOrder message, Effect.deleteOrder body])
    | Except.ok resp =>
      if jsTruthy resp.error then
        ({ error := some { message := resp.error.getD "" }, success := resp.success },
         [Effect.signCancelOrder message, Effect.deleteOrder body])
      else
        ({ error := none, success := resp.success },
         [Effect.signCancelOrder message, Effect.deleteOrder body])

/-- The cancelOrders batch operation (src/index.ts:799-803):
`Promise.all(ordersArgs.map(order => cancelOrder(...order)))`, each call
paired with its own external world. -/
def cancelOrders (cfg : Config) (calls : List ((String × ℤ) × CancelEnv)) :
    List SuccessResult :=
  calls.map fun call => (cancelOrder cfg call.2 call.1.1 call.1.2).1

/-- The cancelOpenOrdersForProduct operation (src/index.ts:709-743). -/
def cancelOpenOrdersForProduct (cfg : Config) (env : CancelEnv)
    (productId : ℤ) : SuccessResult × List Effect :=
  let message : CancelOrdersMessage :=
    { account := cfg.account
      productId := productId
      subAccountId := cfg.subAccountId }
  match env.sign with
  | Except.error _ =>
    ({ error := some { message := UNKNOWN_ERROR }, success := false },
     [Effect.signCancelOrders message])
  | Except.ok signature =>
    let body : CancelOrdersBody :=
      { account := cfg.account
        productId := productId
        subAccountId := cfg.subAccountId
        signature := signature }
    match env.fetch with
    | Except.error _ =>
      ({ error := some { message := UNKNOWN_ERROR }, success := false },
       [Effect.signCancelOrders message, Effect.deleteOpenOrders body])
    | Except.ok resp =>
      if jsTruthy resp.error then
        ({ error := some { message := resp.error.getD "" }, success := resp.success },
         [Effect.signCancelOrders message, Effect.deleteOpenOrders body])
      else
        ({ error := none, success := resp.success },
         [Effect.signCancelOrders message, Effect.deleteOpenOrders body])

/-- The withdraw operation (src/index.ts:1181-1231); quantities convert at 6
decimals and the asset address comes from the margin-asset table. -/
def withdraw (cfg : Config) (env : WithdrawEnv) (quantity : ℚ)
    (asset : String) : SuccessResult × List Effect :=
  let bigQuantity := toUSDCRat quantity
  let nonce := env.nonce0
  let assetAddress := (cfg.marginAssets.lookup asset).getD ""
  let message : WithdrawMessage :=
    { account := cfg.account
      asset := assetAddress
      subAccountId := cfg.subAccountId
      nonce := nonce
      quantity := bigQuantity }
  match env.sign with
  | Except.error _ =>
    ({ error := some { message := UNKNOWN_ERROR }, success := false },
     [Effect.signWithdraw message])
  | Except.ok signature =>
    let body : WithdrawBody :=
      { account := cfg.account
        asset := assetAddress
        subAccountId := cfg.subAccountId
        nonce := nonce
        quantity := toString bigQuantity
        signature := signature }
    match env.fetch with
    | Except.error _ =>
      ({ error := some { message := UNKNOWN_ERROR }, success := false },
       [Effect.signWithdraw message, Effect.postWithdraw body])
    | Except.ok resp =>
      if jsTruthy resp.error then
        ({ error := some { message := resp.error.getD "" }, success := false },
         [Effect.signWithdraw message, Effect.postWithdraw body])
      else
        ({ error := none, success := resp.success },
         [Effect.signWithdraw message, Effect.postWithdraw body])

/-- The getAccountHealth operation (src/index.ts:897-923): an unauthenticated
GET whose response is `{error?, value}`. -/
def getAccountHealth (cfg : Config) (fetch : Except Unit ValueApiResponse) :
    AccountHealthResult × List Effect :=
  let path := "account-health?account=" ++ cfg.account ++ "&subAccountId=" ++
    toString cfg.subAccountId
  match fetch with
  | Except.error _ =>
    ({ error := some { message := UNKNOWN_ERROR }, accountHealth := none },
     [Effect.getRequest path])
  | Except.ok resp =>
    if jsTruthy resp.error then
      ({ error := some { message := resp.error.getD "" }, accountHealth := none },
       [Effect.getRequest path])
    else
      ({ error := none, accountHealth := some resp.value },
       [Effect.getRequest path])

/-- The calculateMarginRequirement operation (src/index.ts:340-373); the query
parameters carry the wei renderings of price and quantity, and the error
placeholder `BigInt('')` is the bigint 0. -/
def calculateMarginRequirement (_cfg : Config) (fetch : Except Unit MarginApiResponse)
    (isBuy : Bool) (price : ℚ) (productId : ℤ) (quantity : ℚ) :
    MarginRequirementResult × List Effect :=
  let path := "new-order-margin?isBuy=" ++ (if isBuy then "true" else "false") ++
    "&price=" ++ toString (toWeiRat price) ++ "&productId=" ++ toString productId ++
    "&quantity=" ++ toString (toWeiRat quantity)
  match fetch with
  | Except.error _ =>
    ({ error := some { message := UNKNOWN_ERROR }, required := 0 },
     [Effect.getRequest path])
  | Except.ok resp =>
    if jsTruthy resp.error then
      ({ error := some { message := resp.error.getD "" }, required := 0 },
       [Effect.getRequest path])
    else
      ({ error := none, required := resp.value }, [Effect.getRequest path])

/-- The getTradeHistory operation (src/index.ts:586-611); an absent trades
field falls back to the empty list via `trades || []`. -/
def getTradeHistory (cfg : Config) (fetch : Except Unit TradesApiResponse)
    (productSymbol : String) (quantity : ℤ) : TradeHistoryResult × List Effect :=
  let path := "trade-history?symbol=" ++ productSymbol ++ "&lookback=" ++
    toString quantity ++ "&account=" ++ cfg.account ++ "&subAccountId=" ++
    toString cfg.subAccountId
  match fetch with
  | Except.error _ =>
    ({ error := some { message := UNKNOWN_ERROR }, trades := [] },
     [Effect.getRequest path])
  | Except.ok resp =>
    if jsTruthy resp.error then
      ({ error := some { message := resp.error.getD "" }, trades := [] },
       [Effect.getRequest path])
    else
      ({ error := none, trades := resp.trades.getD [] }, [Effect.getRequest path])

/-- The unguarded fetch tail of getKlines (src/index.ts:454-466); the query
parameter serialisation of the optional arguments is presentation and is kept
to the symbol. -/
def klinesFetch (productSymbol : String) (fetch : Except Unit (List String)) :
    KlinesResult × List Effect :=
  match fetch with
  | Except.error _ =>
    ({ error := some { message := UNKNOWN_ERROR }, klines := [] },
     [Effect.getRequest ("uiKlines?symbol=" ++ productSymbol)])
  | Except.ok rows =>
    ({ error := none, klines := rows },
     [Effect.getRequest ("uiKlines?symbol=" ++ productSymbol)])

/-- The getKlines operation (src/index.ts:421-467): when optional arguments
are supplied, three validations run in order before any request; comparisons
follow JavaScript `Number` semantics where an absent field is NaN. -/
def getKlines (productSymbol : String) (optionalArgs : Option KlineOptionalArgs)
    (now : ℤ) (fetch : Except Unit (List String)) : KlinesResult × List Effect :=
  match optionalArgs with
  | some args =>
    if jsGT args.limit (some 1000) || jsLE args.limit (some 0) then
      ({ error := some { message := "Limit must be between 0 and 1000." },
         klines := [] }, [])
    else if jsGT args.startTime args.endTime then
      ({ error := some { message := "Start time cannot be after end time." },
         klines := [] }, [])
    else if jsGT args.startTime (some now) then
      ({ error := some { message := "Start time cannot be in the future." },
         klines := [] }, [])
    else
      klinesFetch productSymbol fetch
  | none => klinesFetch productSymbol fetch

/-- The setSubAccountId setter (src/index.ts:319-322): it assigns the
sub-account id and nothing else. -/
def setSubAccountId (cfg : Config) (subAccountId : ℤ) : Config :=
  { cfg with subAccountId := subAccountId }

/-- One invocation of a public client method together with the external
outcomes it consumes.  The constructors enumerate every public member of the
CitrexSDK class in src/index.ts: the trading and withdrawal operations, the
deposit flow (whose external world is the chain collaborator: the current
allowance and the outcomes of the approval and deposit transactions), the
authenticated list queries (a signing outcome plus an opaque parsed
response), the public market-data queries (an opaque parsed response), and
the setSubAccountId setter. -/
inductive MethodCall where
  | callPlaceOrder (env : OrderEnv) (args : OrderArgs)
  | callPlaceOrders (calls : List (OrderArgs × OrderEnv))
  | callCancelOrder (env : CancelEnv) (orderId : String) (productId : ℤ)
  | callCancelOrders (calls : List ((String × ℤ) × CancelEnv))
  | callCancelOpenOrdersForProduct (env : CancelEnv) (productId : ℤ)
  | callCancelAndReplaceOrder (env : OrderEnv) (orderId : String)
      (args : ReplacementOrderArgs)
  | callWithdraw (env : WithdrawEnv) (quantity : ℚ) (asset : String)
  | callDeposit (allowance : ℤ) (approvalTx : Except Unit String)
      (depositTx : Except Unit String) (quantity : ℚ) (asset : String)
  | callGetAccountHealth (fetch : Except Unit ValueApiResponse)
  | callCalculateMarginRequirement (fetch : Except Unit MarginApiResponse)
      (isBuy : Bool) (price : ℚ) (productId : ℤ) (quantity : ℚ)
  | callGetTradeHistory (fetch : Except Unit TradesApiResponse)
      (productSymbol : String) (quantity : ℤ)
  | callGetKlines (productSymbol : String) (optionalArgs : Option KlineOptionalArgs)
      (now : ℤ) (fetch : Except Unit (List String))
  | callListBalances (sign : Except Unit String) (fetch : Except Unit String)
  | callListOpenOrders (sign : Except Unit String) (fetch : Except Unit String)
      (productSymbol : Option String)
  | callListPositions (sign : Except Unit String) (fetch : Except Unit String)
      (productSymbol : Option String)
  | callGetOrderBook (fetch : Except Unit String) (productSymbol : String)
      (limit : ℤ) (granularity : ℤ)
  | callGetProducts (fetch : Except Unit String)
  | callGetProduct (fetch : Except Unit String) (identifier : String)
  | callGetServerTime (fetch : Except Unit String)
  | callGetTickers (fetch : Except Unit String) (productSymbol : Option String)
  | callSetSubAccountId (subAccountId : ℤ)

/-- The configuration state after a method call.  No public method body in
src/index.ts assigns an instance field — placeOrder(s), cancelOrder(s),
cancelOpenOrdersForProduct, cancelAndReplaceOrder, withdraw, deposit,
getAccountHealth, calculateMarginRequirement, getTradeHistory, getKlines,
listBalances, listOpenOrders, listPositions, getOrderBook, getProducts,
getProduct, getServerTime and getTickers all leave the configuration as it
was; the single field assignment outside the constructor is
`this.subAccountId = subAccountId` in the setSubAccountId setter
(src/index.ts:321). -/
def configAfter (cfg : Config) : MethodCall → Config
  | MethodCall.callPlaceOrder _ _ => cfg
  | MethodCall.callPlaceOrders _ => cfg
  | MethodCall.callCancelOrder _ _ _ => cfg
  | MethodCall.callCancelOrders _ => cfg
  | MethodCall.callCancelOpenOrdersForProduct _ _ => cfg
  | MethodCall.callCancelAndReplaceOrder _ _ _ => cfg
  | MethodCall.callWithdraw _ _ _ => cfg
  | MethodCall.callDeposit _ _ _ _ _ => cfg
  | MethodCall.callGetAccountHealth _ => cfg
  | MethodCall.callCalculateMarginRequirement _ _ _ _ _ => cfg
  | MethodCall.callGetTradeHistory _ _ _ => cfg
  | MethodCall.callGetKlines _ _ _ _ => cfg
  | MethodCall.callListBalances _ _ => cfg
  | MethodCall.callListOpenOrders _ _ _ => cfg
  | MethodCall.callListPositions _ _ _ => cfg
  | MethodCall.callGetOrderBook _ _ _ _ => cfg
  | MethodCall.callGetProducts _ => cfg
  | MethodCall.callGetProduct _ _ => cfg
  | MethodCall.callGetServerTime _ => cfg
  | MethodCall.callGetTickers _ _ => cfg
  | MethodCall.callSetSubAccountId n => setSubAccountId cfg n

/-- A concrete testnet-flavoured configuration used by the witnesses. -/
def cfgSample : Config :=
  { account := "0xb47B0b1e44B932Ae9Bb01817E7010A553A965Ea8"
    apiUrl := "https://api.staging.citrex.markets/v1"
    chain := 1328
    ciaoAddress := "0x71728FDDF90233cc35D61bec7858d7c42A310ACe"
    domain :=
      { name := "ciao"
        version := "0.0.0"
        chainId := 1328
        verifyingContract := "0x27809a3Bd3cf44d855f1BE668bFD16D34bcE157C" }
    environment := Environment.testnet
    marginAssets := [("USDC", "0x79A59c326C715AC2d31C169C85d1232319E341ce")]
    rpc := "https://rpc.example"
    subAccountId := 1
    verifierAddress := "0x27809a3Bd3cf44d855f1BE668bFD16D34bcE157C" }

/-- A successful order response used by the witnesses. -/
def respOkSample : OrderApiResponse := { error := none, rest := "order-payload" }

/-- An external world in which signing and transport both succeed. -/
def envOkSample : OrderEnv :=
  { now := 1709829760000
    nonce0 := 1709829760000000
    sign := Except.ok "0xsig"
    fetch := Except.ok respOkSample }

/-- An external world in which the typed-data signing call throws. -/
def envSignFailSample : OrderEnv := { envOkSample with sign := Except.error () }

/-- A market order with no priceIncrement supplied. -/
def argsMarketNoInc : OrderArgs :=
  { expiration := none
    isBuy := true
    nonce := none
    orderType := none
    price := 3450
    priceIncrement := none
    productId := 1002
    quantity := 1 / 1000
    slippage := none
    timeInForce := none }

/-- A fully specified limit order. -/
def argsLimitSample : OrderArgs :=
  { expiration := some 1800000000000
    isBuy := true
    nonce := some 123
    orderType := some OrderType.limit
    price := 3450
    priceIncrement := none
    productId := 1002
    quantity := 1 / 1000
    slippage := none
    timeInForce := some TimeInForce.ioc }

/-- A market order with a priceIncrement of 10^17. -/
def argsMarketSample : OrderArgs := { argsMarketNoInc with priceIncrement := some (10 ^ 17) }

/-- Claim C1: a placeOrder call whose order type resolves to MARKET and whose
priceIncrement argument is undefined returns the result envelope carrying the
message "A priceIncrement is required for market orders" and an empty order,
and performs no signing call and no network request. -/
theorem placeOrder_market_without_increment (cfg : Config) (env : OrderEnv)
    (args : OrderArgs)
    (hmarket : args.orderType.getD OrderType.market = OrderType.market)
    (hinc : args.priceIncrement = none) :
    placeOrder cfg env args =
      ({ error := some { message := "A priceIncrement is required for market orders" },
         order := none }, []) := by
  simp [placeOrder, hmarket, hinc]

/-- Witness for claim C1 at a concrete market order without an increment. -/
theorem placeOrder_market_without_increment_witness :
    argsMarketNoInc.orderType.getD OrderType.market = OrderType.market ∧
    argsMarketNoInc.priceIncrement = none ∧
    placeOrder cfgSample envOkSample argsMarketNoInc =
      ({ error := some { message := "A priceIncrement is required for market orders" },
         order := none }, []) :=
  ⟨rfl, rfl, placeOrder_market_without_increment cfgSample envOkSample argsMarketNoInc rfl rfl⟩

/-- Claim C2 counterexample: at a concrete limit order whose typed-data
signing call throws, placeOrder returns the uniform unknown-error result
envelope — the signing failure is caught by the operation and converted, not
allowed to propagate. -/
theorem placeOrder_signing_failure_converted :
    (placeOrder cfgSample envSignFailSample argsLimitSample).1 =
      { error := some { message := UNKNOWN_ERROR }, order := none } := by
  decide

/-- Claim C2 (amended): in every public trading operation the signing call
sits inside the operation's try/catch, so a thrown signing failure is caught
and surfaced as the uniform unknown-error envelope instead of escaping. -/
theorem signing_failure_yields_unknown_error :
    (∀ (cfg : Config) (env : OrderEnv) (args : OrderArgs),
        env.sign = Except.error () →
        (args.orderType.getD OrderType.market = OrderType.market →
          args.priceIncrement ≠ none) →
        (placeOrder cfg env args).1 =
          { error := some { message := UNKNOWN_ERROR }, order := none }) ∧
    (∀ (cfg : Config) (env : OrderEnv) (orderId : String) (args : ReplacementOrderArgs),
        env.sign = Except.error () →
        (cancelAndReplaceOrder cfg env orderId args).1 =
          { error := some { message := UNKNOWN_ERROR }, order := none }) ∧
    (∀ (cfg : Config) (env : CancelEnv) (orderId : String) (productId : ℤ),
        env.sign = Except.error () →
        (cancelOrder cfg env orderId productId).1 =
          { error := some { message := UNKNOWN_ERROR }, success := false }) ∧
    (∀ (cfg : Config) (env : CancelEnv) (productId : ℤ),
        env.sign = Except.error () →
        (cancelOpenOrdersForProduct cfg env productId).1 =
          { error := some { message := UNKNOWN_ERROR }, success := false }) ∧
    (∀ (cfg : Config) (env : WithdrawEnv) (quantity : ℚ) (asset : String),
        env.sign = Except.error () →
        (withdraw cfg env quantity asset).1 =
          { error := some { message := UNKNOWN_ERROR }, success := false }) := by
  refine ⟨?_, ?_, ?_, ?_, ?_⟩
  · intro cfg env args hsign hval
    have hcond : ¬(args.orderType.getD OrderType.market = OrderType.market ∧
        args.priceIncrement = none) := fun h => hval h.1 h.2
    simp [placeOrder, hcond, hsign]
  · intro cfg env orderId args hsign
    simp [cancelAndReplaceOrder, hsign]
  · intro cfg env orderId productId hsign
    simp [cancelOrder, hsign]
  · intro cfg env productId hsign
    simp [cancelOpenOrdersForProduct, hsign]
  · intro cfg env quantity asset hsign
    simp [withdraw, hsign]

/-- An external cancel world in which the signing call throws. -/
def cancelEnvSignFail : CancelEnv :=
  { sign := Except.error (), fetch := Except.ok { error := none, success := true } }

/-- An external withdraw world in which the signing call throws. -/
def withdrawEnvSignFail : WithdrawEnv :=
  { nonce0 := 1709829760000000
    sign := Except.error ()
    fetch := Except.ok { error := none, success := true } }

/-- A concrete replacement order. -/
def replArgsSample : ReplacementOrderArgs :=
  { expiration := some 1800000000000
    isBuy := true
    nonce := some 123
    price := 3455
    productId := 1002
    quantity := 1 / 1000 }

/-- Witness for the amended claim C2 at concrete signing-failure worlds. -/
theorem signing_failure_yields_unknown_error_witness :
    (placeOrder cfgSample envSignFailSample argsMarketSample).1 =
      { error := some { message := UNKNOWN_ERROR }, order := none } ∧
    (cancelAndReplaceOrder cfgSample envSignFailSample "0xid" replArgsSample).1 =
      { error := some { message := UNKNOWN_ERROR }, order := none } ∧
    (cancelOrder cfgSample cancelEnvSignFail "0xid" 1002).1 =
      { error := some { message := UNKNOWN_ERROR }, success := false } ∧
    (cancelOpenOrdersForProduct cfgSample cancelEnvSignFail 1002).1 =
      { error := some { message := UNKNOWN_ERROR }, success := false } ∧
    (withdraw cfgSample withdrawEnvSignFail 100 "USDC").1 =
      { error := some { message := UNKNOWN_ERROR }, success := false } :=
  ⟨signing_failure_yields_unknown_error.1 cfgSample envSignFailSample argsMarketSample
      rfl (fun _ h => by cases h),
   signing_failure_yields_unknown_error.2.1 cfgSample envSignFailSample "0xid"
      replArgsSample rfl,
   signing_failure_yields_unknown_error.2.2.1 cfgSample cancelEnvSignFail "0xid" 1002 rfl,
   signing_failure_yields_unknown_error.2.2.2.1 cfgSample cancelEnvSignFail 1002 rfl,
   signing_failure_yields_unknown_error.2.2.2.2 cfgSample withdrawEnvSignFail 100 "USDC" rfl⟩

/-- Claim C3: every typed `Order` message signed by cancelAndReplaceOrder and
the newOrder object of its wire payload carry the LIMIT_MAKER order-type code
and the GTC time-in-force code, for all caller-supplied replacement
arguments. -/
theorem cancelAndReplace_pins_limitMaker_gtc (cfg : Config) (env : OrderEnv)
    (orderId : String) (args : ReplacementOrderArgs) :
    (∀ m : OrderMessage,
        Effect.signOrder m ∈ (cancelAndReplaceOrder cfg env orderId args).2 →
        m.orderType = OrderType.limitMaker.code ∧
        m.timeInForce = TimeInForce.gtc.code) ∧
    (∀ b : ReplaceBody,
        Effect.postReplace b ∈ (cancelAndReplaceOrder cfg env orderId args).2 →
        b.newOrder.orderType = OrderType.limitMaker.code ∧
        b.newOrder.timeInForce = TimeInForce.gtc.code) := by
  obtain ⟨now, nonce0, sg, ft⟩ := env
  constructor
  · intro m hm
    rcases sg with e | s
    · simp [cancelAndReplaceOrder] at hm
      subst hm
      exact ⟨rfl, rfl⟩
    · rcases ft with e | resp
      · simp [cancelAndReplaceOrder] at hm
        subst hm
        exact ⟨rfl, rfl⟩
      · by_cases h : jsTruthy resp.error <;>
          simp [cancelAndReplaceOrder, h] at hm <;>
          subst hm <;> exact ⟨rfl, rfl⟩
  · intro b hb
    rcases sg with e | s
    · simp [cancelAndReplaceOrder] at hb
    · rcases ft with e | resp
      · simp [cancelAndReplaceOrder] at hb
        subst hb
        exact ⟨rfl, rfl⟩
      · by_cases h : jsTruthy resp.error <;>
          simp [cancelAndReplaceOrder, h] at hb <;>
          subst hb <;> exact ⟨rfl, rfl⟩

/-- The typed message cancelAndReplaceOrder signs for the sample replacement
order. -/
def replaceMsgSample : OrderMessage :=
  buildOrderMessage cfgSample true OrderType.limitMaker TimeInForce.gtc 1002
    1800000000000 123 (toWeiRat 3455) (toWeiRat (1 / 1000))

/-- Witness for claim C3 at the sample replacement order. -/
theorem cancelAndReplace_pins_limitMaker_gtc_witness :
    replaceMsgSample.orderType = OrderType.limitMaker.code ∧
    replaceMsgSample.timeInForce = TimeInForce.gtc.code :=
  (cancelAndReplace_pins_limitMaker_gtc cfgSample envOkSample "0xid" replArgsSample).1
    replaceMsgSample
    (by simp [cancelAndReplaceOrder, envOkSample, respOkSample, replArgsSample,
      replaceMsgSample, jsTruthy])

/-- Rounding half away from zero fixes the integers. -/
theorem roundHalfAway_intCast (m : ℤ) : roundHalfAway (m : ℚ) = m := by
  unfold roundHalfAway
  by_cases h : (0 : ℚ) ≤ (m : ℚ)
  · rw [if_pos h, show ((m : ℚ) + 1 / 2) = (1 / 2 : ℚ) + (m : ℤ) by ring,
      Int.floor_add_int]
    norm_num
  · rw [if_neg h, show (-(m : ℚ) + 1 / 2) = (1 / 2 : ℚ) + ((-m : ℤ) : ℚ) by push_cast; ring,
      Int.floor_add_int]
    norm_num

/-- Rounding half away from zero is monotone. -/
theorem roundHalfAway_mono {x y : ℚ} (h : x ≤ y) :
    roundHalfAway x ≤ roundHalfAway y := by
  unfold roundHalfAway
  by_cases hx : 0 ≤ x
  · rw [if_pos hx, if_pos (le_trans hx h)]
    exact Int.floor_mono (by linarith)
  · rw [if_neg hx]
    by_cases hy : 0 ≤ y
    · rw [if_pos hy]
      push_neg at hx
      have h1 : (0 : ℤ) ≤ ⌊-x + 1 / 2⌋ := Int.floor_nonneg.mpr (by linarith)
      have h2 : (0 : ℤ) ≤ ⌊y + 1 / 2⌋ := Int.floor_nonneg.mpr (by linarith)
      linarith
    · rw [if_neg hy]
      have := Int.floor_mono (show -y + 1 / 2 ≤ -x + 1 / 2 by linarith)
      linarith

/-- toRounded is monotone at every precision. -/
theorem toRounded_mono (p : ℤ) {x y : ℚ} (h : x ≤ y) :
    toRounded x p ≤ toRounded y p := by
  unfold toRounded
  have hpow : (0 : ℚ) < 10 ^ p := by positivity
  have hmul : x * 10 ^ p ≤ y * 10 ^ p := mul_le_mul_of_nonneg_right h hpow.le
  have hra := roundHalfAway_mono hmul
  gcongr


/-- toRounded fixes every value already representable at the precision. -/
theorem toRounded_eq_self (x : ℚ) (p : ℤ) (m : ℤ) (hm : x * 10 ^ p = (m : ℚ)) :
    toRounded x p = x := by
  unfold toRounded
  rw [hm, roundHalfAway_intCast]
  rw [div_eq_iff (by positivity : (0 : ℚ) < 10 ^ p).ne']
  exact hm.symm

/-- Claim C4 counterexample: a buy at price 100.04 with the positive slippage
0.001 percent and tick increment 10^17 (precision 1) is adjusted to 100.0,
strictly below the original price: rounding to the tick can cross the original
price when that price is not itself on the tick grid. -/
theorem adjustPriceForSlippage_buy_below_price :
    adjustPriceForSlippage true (10004 / 100) (1 / 1000) (10 ^ 17) < 10004 / 100 := by
  unfold adjustPriceForSlippage
  rw [Nat.log_pow (by norm_num)]
  unfold toRounded roundHalfAway
  norm_num

/-- Claim C4 (amended): for every positive price, positive slippage and
power-of-ten tick increment, provided the price is exactly representable at
the tick precision 18 - log10(increment), the slippage-adjusted price is at
least the original price for buys and at most the original price for sells. -/
theorem adjustPriceForSlippage_directional (price slippage : ℚ) (inc : ℕ)
    (hp : 0 < price) (hs : 0 < slippage)
    (halign : ∃ m : ℤ, price * 10 ^ ((18 : ℤ) - (Nat.log 10 inc : ℤ)) = (m : ℚ)) :
    price ≤ adjustPriceForSlippage true price slippage inc ∧
    adjustPriceForSlippage false price slippage inc ≤ price := by
  obtain ⟨m, hm⟩ := halign
  have hself : toRounded price ((18 : ℤ) - (Nat.log 10 inc : ℤ)) = price :=
    toRounded_eq_self price _ m hm
  constructor
  · have hle : price ≤ price * (1 + slippage / 100) := by nlinarith
    have hmono := toRounded_mono ((18 : ℤ) - (Nat.log 10 inc : ℤ)) hle
    rw [hself] at hmono
    exact hmono
  · have hle : price * (1 - slippage / 100) ≤ price := by nlinarith
    have hmono := toRounded_mono ((18 : ℤ) - (Nat.log 10 inc : ℤ)) hle
    rw [hself] at hmono
    exact hmono

/-- Witness for the amended claim C4 at price 100, slippage 1 percent and
tick increment 10^17. -/
theorem adjustPriceForSlippage_directional_witness :
    (0 : ℚ) < 100 ∧ (0 : ℚ) < 1 ∧
    (100 ≤ adjustPriceForSlippage true 100 1 (10 ^ 17) ∧
     adjustPriceForSlippage false 100 1 (10 ^ 17) ≤ 100) :=
  ⟨by norm_num, by norm_num,
   adjustPriceForSlippage_directional 100 1 (10 ^ 17) (by norm_num) (by norm_num)
     ⟨1000, by rw [Nat.log_pow (by norm_num)]; norm_num⟩⟩

/-- The limit check of the claim, stated arithmetically: a supplied limit must
lie in (0, 1000]; an absent limit passes (NaN comparisons are false). -/
def limitOk (args : KlineOptionalArgs) : Bool :=
  match args.limit with
  | some l => decide (0 < l ∧ l ≤ 1000)
  | none => true

/-- The start/end check of the claim, stated arithmetically: when both are
supplied the start must not exceed the end; otherwise the check passes. -/
def startEndOk (args : KlineOptionalArgs) : Bool :=
  match args.startTime, args.endTime with
  | some s, some e => decide (s ≤ e)
  | _, _ => true

/-- Claim C5: with optional arguments supplied, getKlines runs its three
validations in order — limit in (0, 1000], start not after end, start not in
the future — the first failure short-circuiting the rest and producing its
error envelope with no network request made. -/
theorem getKlines_validation_precedence (ps : String) (args : KlineOptionalArgs)
    (now : ℤ) (fetch : Except Unit (List String)) :
    (∀ l : ℤ, args.limit = some l → (1000 < l ∨ l ≤ 0) →
        getKlines ps (some args) now fetch =
          ({ error := some { message := "Limit must be between 0 and 1000." },
             klines := [] }, [])) ∧
    (∀ s e : ℤ, limitOk args = true → args.startTime = some s →
        args.endTime = some e → e < s →
        getKlines ps (some args) now fetch =
          ({ error := some { message := "Start time cannot be after end time." },
             klines := [] }, [])) ∧
    (∀ s : ℤ, limitOk args = true → startEndOk args = true →
        args.startTime = some s → now < s →
        getKlines ps (some args) now fetch =
          ({ error := some { message := "Start time cannot be in the future." },
             klines := [] }, [])) := by
  have hlimitOf : limitOk args = true →
      (jsGT args.limit (some 1000) || jsLE args.limit (some 0)) = false := by
    intro hlim
    cases hl : args.limit with
    | none => simp [jsGT, jsLE, hl]
    | some l =>
      rw [limitOk, hl] at hlim
      simp only [decide_eq_true_eq] at hlim
      simp [jsGT, jsLE, hl]
      omega
  refine ⟨?_, ?_, ?_⟩
  · intro l hl hout
    have hcond : (jsGT args.limit (some 1000) || jsLE args.limit (some 0)) = true := by
      rcases hout with h | h <;> simp [jsGT, jsLE, hl, h]
    simp [getKlines, hcond]
  · intro s e hlim hs he hlt
    have hcond2 : jsGT args.startTime args.endTime = true := by
      simp [jsGT, hs, he, hlt]
    simp [getKlines, hlimitOf hlim, hcond2]
  · intro s hlim hse hs hfut
    have hcond2 : jsGT args.startTime args.endTime = false := by
      cases he : args.endTime with
      | none => simp [jsGT, hs, he]
      | some e =>
        rw [startEndOk, hs, he] at hse
        simp only [decide_eq_true_eq] at hse
        simp [jsGT, hs, he]
        omega
    have hcond3 : jsGT args.startTime (some now) = true := by
      simp [jsGT, hs, hfut]
    simp [getKlines, hlimitOf hlim, hcond2, hcond3]

/-- K-line arguments with an out-of-range limit. -/
def klArgsBadLimit : KlineOptionalArgs :=
  { endTime := none, interval := none, limit := some 1500, startTime := none }

/-- K-line arguments whose start time is after the end time. -/
def klArgsBadRange : KlineOptionalArgs :=
  { endTime := some 100, interval := none, limit := some 500, startTime := some 200 }

/-- K-line arguments whose start time is in the future. -/
def klArgsFuture : KlineOptionalArgs :=
  { endTime := some 4000000000000
    interval := none
    limit := some 500
    startTime := some 3000000000000 }

/-- Witness for claim C5 at three concrete invalid queries. -/
theorem getKlines_validation_precedence_witness :
    getKlines "ethperp" (some klArgsBadLimit) 1709829760000 (Except.ok []) =
      ({ error := some { message := "Limit must be between 0 and 1000." },
         klines := [] }, []) ∧
    getKlines "ethperp" (some klArgsBadRange) 1709829760000 (Except.ok []) =
      ({ error := some { message := "Start time cannot be after end time." },
         klines := [] }, []) ∧
    getKlines "ethperp" (some klArgsFuture) 1709829760000 (Except.ok []) =
      ({ error := some { message := "Start time cannot be in the future." },
         klines := [] }, []) :=
  ⟨(getKlines_validation_precedence "ethperp" klArgsBadLimit 1709829760000
      (Except.ok [])).1 1500 rfl (by decide),
   (getKlines_validation_precedence "ethperp" klArgsBadRange 1709829760000
      (Except.ok [])).2.1 200 100 (by decide) rfl rfl (by decide),
   (getKlines_validation_precedence "ethperp" klArgsFuture 1709829760000
      (Except.ok [])).2.2 3000000000000 (by decide) (by decide) rfl (by decide)⟩

/-- Claim C6: the batch operations apply the single-item operation
independently and positionally: the result list has the length of the input
list and its i-th element is exactly the single-operation result for the i-th
input with its own external outcome, so no element's failure can change or
suppress a sibling's result. -/
theorem batch_operations_elementwise (cfg : Config)
    (orderCalls : List (OrderArgs × OrderEnv))
    (cancelCalls : List ((String × ℤ) × CancelEnv)) :
    (placeOrders cfg orderCalls).length = orderCalls.length ∧
    (∀ i : ℕ, (placeOrders cfg orderCalls)[i]? =
      (orderCalls[i]?).map fun call => (placeOrder cfg call.2 call.1).1) ∧
    (cancelOrders cfg cancelCalls).length = cancelCalls.length ∧
    (∀ i : ℕ, (cancelOrders cfg cancelCalls)[i]? =
      (cancelCalls[i]?).map fun call => (cancelOrder cfg call.2 call.1.1 call.1.2).1) := by
  refine ⟨?_, fun i => ?_, ?_, fun i => ?_⟩ <;>
    simp [placeOrders, cancelOrders]

/-- Claim C7: whenever placeOrder or cancelAndReplaceOrder reaches its
request-building step, the numeric fields of the outbound wire payload carry
exactly the values of the signed typed message: expiration and nonce as the
same integers, price and quantity as the decimal-string renderings of the
same integers. -/
theorem wire_payload_matches_signed_message (cfg : Config) (env : OrderEnv)
    (args : OrderArgs) (orderId : String) (rargs : ReplacementOrderArgs) :
    (∀ (m : OrderMessage) (b : OrderBody),
        Effect.signOrder m ∈ (placeOrder cfg env args).2 →
        Effect.postOrder b ∈ (placeOrder cfg env args).2 →
        b.expiration = m.expiration ∧ b.nonce = m.nonce ∧
        b.price = toString m.price ∧ b.quantity = toString m.quantity) ∧
    (∀ (m : OrderMessage) (rb : ReplaceBody),
        Effect.signOrder m ∈ (cancelAndReplaceOrder cfg env orderId rargs).2 →
        Effect.postReplace rb ∈ (cancelAndReplaceOrder cfg env orderId rargs).2 →
        rb.newOrder.expiration = m.expiration ∧ rb.newOrder.nonce = m.nonce ∧
        rb.newOrder.price = toString m.price ∧
        rb.newOrder.quantity = toString m.quantity) := by
  obtain ⟨now, nonce0, sg, ft⟩ := env
  constructor
  · intro m b hm hb
    by_cases hc : args.orderType.getD OrderType.market = OrderType.market ∧
        args.priceIncrement = none
    · simp [placeOrder, hc] at hm
    · rcases sg with e | s
      · simp [placeOrder, hc] at hb
      · rcases ft with e | resp
        · simp [placeOrder, hc] at hm hb
          subst hm
          subst hb
          exact ⟨rfl, rfl, rfl, rfl⟩
        · by_cases ht : jsTruthy resp.error <;>
            simp [placeOrder, hc, ht] at hm hb <;>
            subst hm <;> subst hb <;> exact ⟨rfl, rfl, rfl, rfl⟩
  · intro m rb hm hb
    rcases sg with e | s
    · simp [cancelAndReplaceOrder] at hb
    · rcases ft with e | resp
      · simp [cancelAndReplaceOrder] at hm hb
        subst hm
        subst hb
        exact ⟨rfl, rfl, rfl, rfl⟩
      · by_cases ht : jsTruthy resp.error <;>
          simp [cancelAndReplaceOrder, ht] at hm hb <;>
          subst hm <;> subst hb <;> exact ⟨rfl, rfl, rfl, rfl⟩

/-- The typed message placeOrder signs for the sample limit order. -/
def orderMsgSample : OrderMessage :=
  buildOrderMessage cfgSample true OrderType.limit TimeInForce.ioc 1002
    1800000000000 123 (toWeiRat 3450) (toWeiRat (1 / 1000))

/-- The wire body placeOrder posts for the sample limit order. -/
def orderBodySample : OrderBody :=
  buildOrderBody cfgSample true OrderType.limit TimeInForce.ioc 1002
    1800000000000 123 (toWeiRat 3450) (toWeiRat (1 / 1000)) "0xsig"

/-- Witness for claim C7 at the sample limit order. -/
theorem wire_payload_matches_signed_message_witness :
    orderBodySample.expiration = orderMsgSample.expiration ∧
    orderBodySample.nonce = orderMsgSample.nonce ∧
    orderBodySample.price = toString orderMsgSample.price ∧
    orderBodySample.quantity = toString orderMsgSample.quantity :=
  (wire_payload_matches_signed_message cfgSample envOkSample argsLimitSample
      "0xid" replArgsSample).1 orderMsgSample orderBodySample
    (by simp [placeOrder, envOkSample, argsLimitSample, respOkSample, jsTruthy,
      orderMsgSample])
    (by simp [placeOrder, envOkSample, argsLimitSample, respOkSample, jsTruthy,
      orderBodySample])

/-- Trimming trailing zeros preserves the value of the fraction-digit string
and never lengthens it. -/
theorem trimTrailingZeros_spec (n : ℕ) : ∀ val : ℕ,
    ((trimTrailingZeros val n).1 : ℚ) / 10 ^ (trimTrailingZeros val n).2 =
      (val : ℚ) / 10 ^ n ∧ (trimTrailingZeros val n).2 ≤ n := by
  induction n with
  | zero => intro val; simp [trimTrailingZeros]
  | succ k ih =>
    intro val
    by_cases h : val % 10 = 0
    · obtain ⟨ihv, ihl⟩ := ih (val / 10)
      have hdvd : (10 : ℕ) ∣ val := Nat.dvd_of_mod_eq_zero h
      obtain ⟨c, hc⟩ := hdvd
      subst hc
      have hdiv : 10 * c / 10 = c := Nat.mul_div_cancel_left c (by norm_num)
      constructor
      · rw [trimTrailingZeros]
        rw [if_pos h, hdiv]
        rw [hdiv] at ihv
        rw [ihv]
        push_cast
        rw [pow_succ]
        field_simp
        ring
      · rw [trimTrailingZeros, if_pos h, hdiv]
        rw [hdiv] at ihl
        exact le_trans ihl (Nat.le_succ k)
    · rw [trimTrailingZeros, if_neg h]
      simp

/-- Claim C8: on every decimal input with at most 18 fractional digits the
`#toWei` conversion — decimal-string parsing at 18 decimals, not binary-float
multiplication — produces an integer that divided by 10^18 gives back the
input exactly. -/
theorem toWei_exact_roundtrip (x : DecimalNum) (hlen : x.fracLen ≤ 18) :
    (toWeiDec x : ℚ) / 10 ^ (18 : ℕ) = x.val := by
  obtain ⟨neg, ip, fv, fl⟩ := x
  simp only at hlen
  obtain ⟨hval, hle⟩ := trimTrailingZeros_spec fl fv
  set fv2 := (trimTrailingZeros fv fl).1 with hfv2
  set fl2 := (trimTrailingZeros fv fl).2 with hfl2
  have hfl2le : fl2 ≤ 18 := le_trans hle hlen
  have hpow18 : ((10 : ℚ) ^ (18 : ℕ)) ≠ 0 := by positivity
  have hcore : parseUnitsCore ip fv fl 18 = ip * 10 ^ 18 + fv2 * 10 ^ (18 - fl2) := by
    unfold parseUnitsCore
    have hnlt : ¬(18 < fl2) := by omega
    simp [← hfv2, ← hfl2, hnlt]
  have hsplit : (10 : ℚ) ^ (18 : ℕ) = 10 ^ (18 - fl2) * 10 ^ fl2 := by
    rw [← pow_add]
    congr 1
    omega
  have hv2 : (fv2 : ℚ) * 10 ^ (18 - fl2) = ((fv : ℚ) / 10 ^ fl) * 10 ^ (18 : ℕ) := by
    rw [hsplit, ← hval]
    have h2 : ((10 : ℚ) ^ fl2) ≠ 0 := by positivity
    field_simp
    ring
  have hbase : ((parseUnitsCore ip fv fl 18 : ℕ) : ℚ) / 10 ^ (18 : ℕ) =
      (ip : ℚ) + (fv : ℚ) / 10 ^ fl := by
    rw [hcore, div_eq_iff hpow18]
    push_cast
    rw [hv2]
    ring
  cases neg with
  | false =>
    unfold toWeiDec parseUnitsDec DecimalNum.val
    simp only [Bool.false_eq_true, if_false, one_mul]
    push_cast
    push_cast at hbase
    rw [hbase]
  | true =>
    unfold toWeiDec parseUnitsDec DecimalNum.val
    simp only [if_true]
    push_cast
    push_cast at hbase
    rw [neg_div, hbase]
    ring

/-- Witness for claim C8 at the decimal 3450.5. -/
theorem toWei_exact_roundtrip_witness :
    (DecimalNum.mk false 3450 5 1).fracLen ≤ 18 ∧
    ((toWeiDec (DecimalNum.mk false 3450 5 1) : ℚ) / 10 ^ (18 : ℕ) =
      (DecimalNum.mk false 3450 5 1).val) :=
  ⟨by norm_num, toWei_exact_roundtrip (DecimalNum.mk false 3450 5 1) (by norm_num)⟩

/-- Claim C9: every public operation leaves the client configuration
unchanged — the configuration after any non-setter method call equals the
configuration before it, so in particular account, apiUrl, chain, ciaoAddress,
domain, environment, marginAssets, rpc, verifierAddress and subAccountId are
untouched — and the setSubAccountId setter updates the sub-account id and no
other field. -/
theorem config_readonly_frame :
    (∀ (cfg : Config) (mc : MethodCall),
        (configAfter cfg mc).account = cfg.account ∧
        (configAfter cfg mc).apiUrl = cfg.apiUrl ∧
        (configAfter cfg mc).chain = cfg.chain ∧
        (configAfter cfg mc).ciaoAddress = cfg.ciaoAddress ∧
        (configAfter cfg mc).domain = cfg.domain ∧
        (configAfter cfg mc).environment = cfg.environment ∧
        (configAfter cfg mc).marginAssets = cfg.marginAssets ∧
        (configAfter cfg mc).rpc = cfg.rpc ∧
        (configAfter cfg mc).verifierAddress = cfg.verifierAddress) ∧
    (∀ (cfg : Config) (mc : MethodCall),
        (∀ n : ℤ, mc ≠ MethodCall.callSetSubAccountId n) →
        configAfter cfg mc = cfg) ∧
    (∀ (cfg : Config) (n : ℤ),
        configAfter cfg (MethodCall.callSetSubAccountId n) =
          { cfg with subAccountId := n }) := by
  refine ⟨?_, ?_, ?_⟩
  · intro cfg mc
    cases mc <;> simp [configAfter, setSubAccountId]
  · intro cfg mc h
    cases mc <;> first
      | rfl
      | exact absurd rfl (h _)
  · intro cfg n
    rfl

/-- Witness for claim C9 at a concrete non-setter method call. -/
theorem config_readonly_frame_witness :
    configAfter cfgSample (MethodCall.callGetAccountHealth (Except.error ())) =
      cfgSample :=
  config_readonly_frame.2.1 cfgSample
    (MethodCall.callGetAccountHealth (Except.error ()))
    (fun _ h => MethodCall.noConfusion h)

/-- Claim C10: in every modelled network-backed operation that inspects a
structured response, the known-error branch is taken exactly when the
response's error field is present and truthy; a response whose error field is
the empty string is treated as a success and its payload is returned with no
error. -/
theorem known_error_branch_iff_truthy :
    (∀ (cfg : Config) (env : OrderEnv) (args : OrderArgs)
        (resp : OrderApiResponse) (s : String),
        env.sign = Except.ok s → env.fetch = Except.ok resp →
        (args.orderType.getD OrderType.market = OrderType.market →
          args.priceIncrement ≠ none) →
        (((placeOrder cfg env args).1.error ≠ none) ↔ jsTruthy resp.error = true) ∧
        (resp.error = some "" →
          (placeOrder cfg env args).1 = { error := none, order := some resp.rest })) ∧
    (∀ (cfg : Config) (env : CancelEnv) (orderId : String) (productId : ℤ)
        (resp : SuccessApiResponse) (s : String),
        env.sign = Except.ok s → env.fetch = Except.ok resp →
        (((cancelOrder cfg env orderId productId).1.error ≠ none) ↔
          jsTruthy resp.error = true) ∧
        (resp.error = some "" →
          (cancelOrder cfg env orderId productId).1 =
            { error := none, success := resp.success })) ∧
    (∀ (cfg : Config) (env : CancelEnv) (productId : ℤ)
        (resp : SuccessApiResponse) (s : String),
        env.sign = Except.ok s → env.fetch = Except.ok resp →
        (((cancelOpenOrdersForProduct cfg env productId).1.error ≠ none) ↔
          jsTruthy resp.error = true) ∧
        (resp.error = some "" →
          (cancelOpenOrdersForProduct cfg env productId).1 =
            { error := none, success := resp.success })) ∧
    (∀ (cfg : Config) (env : OrderEnv) (orderId : String)
        (args : ReplacementOrderArgs) (resp : OrderApiResponse) (s : String),
        env.sign = Except.ok s → env.fetch = Except.ok resp →
        (((cancelAndReplaceOrder cfg env orderId args).1.error ≠ none) ↔
          jsTruthy resp.error = true) ∧
        (resp.error = some "" →
          (cancelAndReplaceOrder cfg env orderId args).1 =
            { error := none, order := some resp.rest })) ∧
    (∀ (cfg : Config) (env : WithdrawEnv) (quantity : ℚ) (asset : String)
        (resp : SuccessApiResponse) (s : String),
        env.sign = Except.ok s → env.fetch = Except.ok resp →
        (((withdraw cfg env quantity asset).1.error ≠ none) ↔
          jsTruthy resp.error = true) ∧
        (resp.error = some "" →
          (withdraw cfg env quantity asset).1 =
            { error := none, success := resp.success })) ∧
    (∀ (cfg : Config) (resp : ValueApiResponse),
        (((getAccountHealth cfg (Except.ok resp)).1.error ≠ none) ↔
          jsTruthy resp.error = true) ∧
        (resp.error = some "" →
          (getAccountHealth cfg (Except.ok resp)).1 =
            { error := none, accountHealth := some resp.value })) ∧
    (∀ (cfg : Config) (resp : MarginApiResponse) (isBuy : Bool) (price : ℚ)
        (productId : ℤ) (quantity : ℚ),
        (((calculateMarginRequirement cfg (Except.ok resp) isBuy price productId
            quantity).1.error ≠ none) ↔ jsTruthy resp.error = true) ∧
        (resp.error = some "" →
          (calculateMarginRequirement cfg (Except.ok resp) isBuy price productId
            quantity).1 = { error := none, required := resp.value })) ∧
    (∀ (cfg : Config) (resp : TradesApiResponse) (productSymbol : String)
        (quantity : ℤ),
        (((getTradeHistory cfg (Except.ok resp) productSymbol quantity).1.error ≠
          none) ↔ jsTruthy resp.error = true) ∧
        (resp.error = some "" →
          (getTradeHistory cfg (Except.ok resp) productSymbol quantity).1 =
            { error := none, trades := resp.trades.getD [] })) := by
  have hempty : jsTruthy (some "") = false := rfl
  refine ⟨?_, ?_, ?_, ?_, ?_, ?_, ?_, ?_⟩
  · intro cfg env args resp s hs hf hval
    have hc : ¬(args.orderType.getD OrderType.market = OrderType.market ∧
        args.priceIncrement = none) := fun h => hval h.1 h.2
    constructor
    · by_cases ht : jsTruthy resp.error <;> simp [placeOrder, hc, hs, hf, ht]
    · intro he
      simp [placeOrder, hc, hs, hf, he, hempty]
  · intro cfg env orderId productId resp s hs hf
    constructor
    · by_cases ht : jsTruthy resp.error <;> simp [cancelOrder, hs, hf, ht]
    · intro he
      simp [cancelOrder, hs, hf, he, hempty]
  · intro cfg env productId resp s hs hf
    constructor
    · by_cases ht : jsTruthy resp.error <;>
        simp [cancelOpenOrdersForProduct, hs, hf, ht]
    · intro he
      simp [cancelOpenOrdersForProduct, hs, hf, he, hempty]
  · intro cfg env orderId args resp s hs hf
    constructor
    · by_cases ht : jsTruthy resp.error <;>
        simp [cancelAndReplaceOrder, hs, hf, ht]
    · intro he
      simp [cancelAndReplaceOrder, hs, hf, he, hempty]
  · intro cfg env quantity asset resp s hs hf
    constructor
    · by_cases ht : jsTruthy resp.error <;> simp [withdraw, hs, hf, ht]
    · intro he
      simp [withdraw, hs, hf, he, hempty]
  · intro cfg resp
    constructor
    · by_cases ht : jsTruthy resp.error <;> simp [getAccountHealth, ht]
    · intro he
      simp [getAccountHealth, he, hempty]
  · intro cfg resp isBuy price productId quantity
    constructor
    · by_cases ht : jsTruthy resp.error <;> simp [calculateMarginRequirement, ht]
    · intro he
      simp [calculateMarginRequirement, he, hempty]
  · intro cfg resp productSymbol quantity
    constructor
    · by_cases ht : jsTruthy resp.error <;> simp [getTradeHistory, ht]
    · intro he
      simp [getTradeHistory, he, hempty]

/-- An order response whose error field is the empty string. -/
def respEmptyErrOrder : OrderApiResponse := { error := some "", rest := "order-payload" }

/-- An order-call world whose response carries an empty-string error. -/
def envEmptyErr : OrderEnv := { envOkSample with fetch := Except.ok respEmptyErrOrder }

/-- A success response whose error field is the empty string. -/
def respEmptyErrSuccess : SuccessApiResponse := { error := some "", success := true }

/-- A cancel-call world whose response carries an empty-string error. -/
def cancelEnvEmptyErr : CancelEnv :=
  { sign := Except.ok "0xsig", fetch := Except.ok respEmptyErrSuccess }

/-- A withdraw-call world whose response carries an empty-string error. -/
def withdrawEnvEmptyErr : WithdrawEnv :=
  { nonce0 := 1709829760000000
    sign := Except.ok "0xsig"
    fetch := Except.ok respEmptyErrSuccess }

/-- A value response whose error field is the empty string. -/
def respEmptyErrValue : ValueApiResponse := { error := some "", value := "42" }

/-- A margin response whose error field is the empty string. -/
def respEmptyErrMargin : MarginApiResponse := { error := some "", value := 42 }

/-- A trades response whose error field is the empty string. -/
def respEmptyErrTrades : TradesApiResponse := { error := some "", trades := some ["t"] }

/-- Witness for claim C10: every modelled operation treats a concrete response
with an empty-string error as a success. -/
theorem known_error_branch_iff_truthy_witness :
    ((((placeOrder cfgSample envEmptyErr argsLimitSample).1.error ≠ none) ↔
        jsTruthy respEmptyErrOrder.error = true) ∧
      (respEmptyErrOrder.error = some "" →
        (placeOrder cfgSample envEmptyErr argsLimitSample).1 =
          { error := none, order := some respEmptyErrOrder.rest })) ∧
    ((((cancelOrder cfgSample cancelEnvEmptyErr "0xid" 1002).1.error ≠ none) ↔
        jsTruthy respEmptyErrSuccess.error = true) ∧
      (respEmptyErrSuccess.error = some "" →
        (cancelOrder cfgSample cancelEnvEmptyErr "0xid" 1002).1 =
          { error := none, success := respEmptyErrSuccess.success })) ∧
    ((((cancelOpenOrdersForProduct cfgSample cancelEnvEmptyErr 1002).1.error ≠
        none) ↔ jsTruthy respEmptyErrSuccess.error = true) ∧
      (respEmptyErrSuccess.error = some "" →
        (cancelOpenOrdersForProduct cfgSample cancelEnvEmptyErr 1002).1 =
          { error := none, success := respEmptyErrSuccess.success })) ∧
    ((((cancelAndReplaceOrder cfgSample envEmptyErr "0xid" replArgsSample).1.error ≠
        none) ↔ jsTruthy respEmptyErrOrder.error = true) ∧
      (respEmptyErrOrder.error = some "" →
        (cancelAndReplaceOrder cfgSample envEmptyErr "0xid" replArgsSample).1 =
          { error := none, order := some respEmptyErrOrder.rest })) ∧
    ((((withdraw cfgSample withdrawEnvEmptyErr 100 "USDC").1.error ≠ none) ↔
        jsTruthy respEmptyErrSuccess.error = true) ∧
      (respEmptyErrSuccess.error = some "" →
        (withdraw cfgSample withdrawEnvEmptyErr 100 "USDC").1 =
          { error := none, success := respEmptyErrSuccess.success })) ∧
    ((((getAccountHealth cfgSample (Except.ok respEmptyErrValue)).1.error ≠ none) ↔
        jsTruthy respEmptyErrValue.error = true) ∧
      (respEmptyErrValue.error = some "" →
        (getAccountHealth cfgSample (Except.ok respEmptyErrValue)).1 =
          { error := none, accountHealth := some respEmptyErrValue.value })) ∧
    ((((calculateMarginRequirement cfgSample (Except.ok respEmptyErrMargin) true 100
          1002 1).1.error ≠ none) ↔ jsTruthy respEmptyErrMargin.error = true) ∧
      (respEmptyErrMargin.error = some "" →
        (calculateMarginRequirement cfgSample (Except.ok respEmptyErrMargin) true 100
          1002 1).1 = { error := none, required := respEmptyErrMargin.value })) ∧
    ((((getTradeHistory cfgSample (Except.ok respEmptyErrTrades) "ethperp" 10).1.error ≠
        none) ↔ jsTruthy respEmptyErrTrades.error = true) ∧
      (respEmptyErrTrades.error = some "" →
        (getTradeHistory cfgSample (Except.ok respEmptyErrTrades) "ethperp" 10).1 =
          { error := none, trades := respEmptyErrTrades.trades.getD [] })) :=
  ⟨known_error_branch_iff_truthy.1 cfgSample envEmptyErr argsLimitSample
      respEmptyErrOrder "0xsig" rfl rfl (by decide),
   known_error_branch_iff_truthy.2.1 cfgSample cancelEnvEmptyErr "0xid" 1002
      respEmptyErrSuccess "0xsig" rfl rfl,
   known_error_branch_iff_truthy.2.2.1 cfgSample cancelEnvEmptyErr 1002
      respEmptyErrSuccess "0xsig" rfl rfl,
   known_error_branch_iff_truthy.2.2.2.1 cfgSample envEmptyErr "0xid" replArgsSample
      respEmptyErrOrder "0xsig" rfl rfl,
   known_error_branch_iff_truthy.2.2.2.2.1 cfgSample withdrawEnvEmptyErr 100 "USDC"
      respEmptyErrSuccess "0xsig" rfl rfl,
   known_error_branch_iff_truthy.2.2.2.2.2.1 cfgSample respEmptyErrValue,
   known_error_branch_iff_truthy.2.2.2.2.2.2.1 cfgSample respEmptyErrMargin true 100
      1002 1,
   known_error_branch_iff_truthy.2.2.2.2.2.2.2 cfgSample respEmptyErrTrades
      "ethperp" 10⟩
